import Mathlib

/-!
Shallow embedding of the gateway session supervisor of iot-cloud-server:
the broker `Manager` (event loop, shutdown, RPC dispatch) from the unnamed
manager source file, and the per-gateway `GatewayChannel` (message pump,
`PrintMessage`, `Stop`) from
`internal/infrastructure/broker/gatewaychannel.go`.

External collaborators (the AMQP library, the JSON codec, the database and
the business-logic engine) are represented by the outcomes they can return,
exactly as the embedded control flow branches on them.
-/

namespace IotCloud

/-- Models `entities.IotMessage`: only the fields the embedded code touches
(`GatewayId` used by `CheckGatewayExistence`, `Preview` used by
`PrintMessage`). -/
structure IotMessage where
  gatewayId : String
  preview : String
deriving DecidableEq, Repr

/-- Models a value of `interfaces.Logic` (the Business-Logic Context).
Opaque to the core beyond identity; its `Process` behaviour is supplied as
an oracle where needed. -/
structure Logic where
  lid : Nat
deriving DecidableEq, Repr

/-- Models a `*GatewayChannel` session as stored in the registry.  `sid` is
the allocation identity of the Go pointer (allocation order), so that
closing can be tracked per concrete session object. -/
structure Session where
  sid : Nat
  gatewayId : String
deriving DecidableEq, Repr

/-- Models Go `strings.Split(s, ".")` on the character list: split at every
occurrence of the dot, keeping empty segments; the result is always
non-empty. -/
def splitDotAux : List Char → List (List Char)
  | [] => [[]]
  | c :: cs =>
    let r := splitDotAux cs
    if c = '.' then [] :: r
    else
      match r with
      | h :: t => (c :: h) :: t
      | [] => [[c]]

/-- Models Go `strings.Split(queueName, ".")`. -/
def splitDot (s : String) : List String :=
  (splitDotAux s.data).map (fun l => ⟨l⟩)

/-- The queue-name parse performed by `ProcessExchangeEvents`:
`strArr := strings.Split(queueName, "."); gatewayID := strArr[0]` and the
guard `len(strArr) > 1 && strArr[1] == "in"`. -/
def parseQueue (qn : String) : String × Bool :=
  let arr := splitDot qn
  (arr.headD "", decide (1 < arr.length) && (arr.getD 1 "" == "in"))

/-- Modelled from the spec: `GatewayChannelsMap` (the Session Registry) is
not under `src/`; per the spec it is a concurrency-safe mapping from
gateway identifier to session.  `regGet` models `Get`. -/
def regGet (reg : List (String × Session)) (gid : String) : Option Session :=
  (reg.find? (fun p => p.1 == gid)).map (fun p => p.2)

/-- Modelled from the spec: `Remove` deletes the entry for the identifier
from the mapping. -/
def regRemove (reg : List (String × Session)) (gid : String) : List (String × Session) :=
  reg.filter (fun p => p.1 != gid)

/-- Modelled from the spec: `Add` stores the session under the identifier,
with map semantics (an existing entry for the same identifier is
replaced). -/
def regAdd (reg : List (String × Session)) (gid : String) (ch : Session) : List (String × Session) :=
  (gid, ch) :: regRemove reg gid

/-- Membership of an identifier in the registry mapping. -/
def regContains (reg : List (String × Session)) (gid : String) : Bool :=
  reg.any (fun p => p.1 == gid)

/-- Modelled from the spec: `GetChannels` returns the sessions stored in
the mapping (as iterated by `Manager.Close`). -/
def getChannels (reg : List (String × Session)) : List Session :=
  reg.map (fun p => p.2)

/-- The `exchangeEvent` map built by `readExchangeEvent`; a key can be
absent, which the event loop checks with the comma-ok idiom. -/
structure ExchangeEvent where
  eventType : Option String
  queueName : Option String
deriving DecidableEq, Repr

/-- The `Manager` state that the event loop and `Close` touch: the
registry (`gwChans`), the set of session identities on which `Close()` has
been called by the event loop, and the next allocation identity. -/
structure MgrState where
  registry : List (String × Session)
  closed : List Nat
  nextSid : Nat
deriving DecidableEq, Repr

/-- The manager state right after `NewManager`: an empty registry. -/
def initMgr : MgrState := ⟨[], [], 0⟩

/-- One execution of the event-dispatch part of the `ProcessExchangeEvents`
loop body (lines after a successful read): comma-ok lookups of
`eventType`/`queueName`, the queue-name parse, and the
`queue.created`/`queue.deleted` switch.  On `queue.created` a fresh session
is built (`NewGatewayChannel` + `Start`) and added; on `queue.deleted` a
present session is closed and removed, an absent one only logs. -/
def processEvent (st : MgrState) (ee : ExchangeEvent) : MgrState :=
  match ee.eventType with
  | none => st
  | some eventType =>
    match ee.queueName with
    | none => st
    | some queueName =>
      let p := parseQueue queueName
      let gatewayID := p.1
      if p.2 then
        if eventType = "queue.created" then
          { st with
            registry := regAdd st.registry gatewayID ⟨st.nextSid, gatewayID⟩
            nextSid := st.nextSid + 1 }
        else if eventType = "queue.deleted" then
          match regGet st.registry gatewayID with
          | some ch =>
            { st with
              registry := regRemove st.registry gatewayID
              closed := ch.sid :: st.closed }
          | none => st
        else st
      else st

/-- Folding the event-dispatch step over a delivered event sequence. -/
def runEvents (st : MgrState) (evs : List ExchangeEvent) : MgrState :=
  evs.foldl processEvent st

/-- An event is actionable for gateway `g` when its queue name parses as
`g.in` (the claim's notion of an actionable event). -/
def actionableFor (g : String) (e : ExchangeEvent) : Bool :=
  match e.eventType, e.queueName with
  | some _, some qn => ((parseQueue qn).1 == g) && (parseQueue qn).2
  | _, _ => false

/-- The event type of the most recent actionable event for `g` in a
sequence, if any. -/
def lastActionable (g : String) (evs : List ExchangeEvent) : Option String :=
  evs.foldl (fun acc e => if actionableFor g e then e.eventType else acc) none

/-- The value of the `"name"` header of a delivered management message, as
seen through Go's `amqp.Table` (`interface\x7b\x7d` values): a string or
some non-string value. -/
inductive HeaderVal
  | str (s : String)
  | nonStr
deriving DecidableEq, Repr

/-- What the `select` in `readExchangeEvent` can observe: context
cancellation, a closed consumer channel, or a delivered message with its
routing key and optional `"name"` header. -/
inductive ReadResult
  | cancelled
  | chanClosed
  | msg (routingKey : String) (nameHeader : Option HeaderVal)
deriving DecidableEq, Repr

/-- Outcome of `readExchangeEvent`: an error, a parsed event map, or a
runtime panic (the unchecked assertion `message.Headers["name"].(string)`
on a missing or non-string header). -/
inductive ReadOutcome
  | err (e : String)
  | ok (ee : ExchangeEvent)
  | panicked
deriving DecidableEq, Repr

/-- Embeds `Manager.readExchangeEvent`: cancellation and a closed channel
yield errors; a message yields the event map built from the routing key and
the `"name"` header, where the header type assertion panics unless the
header is present and a string. -/
def readExchangeEvent (r : ReadResult) : ReadOutcome :=
  match r with
  | .cancelled => .err "interrupted reading exchange"
  | .chanClosed => .err "error reading exchange event"
  | .msg routingKey nameHeader =>
    match nameHeader with
    | some (.str s) => .ok ⟨some routingKey, some s⟩
    | _ => .panicked

/-- Loop control of one `ProcessExchangeEvents` iteration. -/
inductive LoopControl
  | cont
  | exit
deriving DecidableEq, Repr

/-- Result of one `ProcessExchangeEvents` iteration: a panic propagated
from the read, or the next manager state together with whether the loop
continues or exits. -/
inductive IterOutcome
  | panicked
  | next (st : MgrState) (c : LoopControl)
deriving DecidableEq, Repr

/-- Embeds one iteration of the `for` loop in `ProcessExchangeEvents`: a
read error (including the cancellation error) hits `continue` with the
state unchanged; a successful read dispatches the event.  No branch of the
loop body exits the loop. -/
def loopIter (st : MgrState) (r : ReadResult) : IterOutcome :=
  match readExchangeEvent r with
  | .panicked => .panicked
  | .err _ => .next st .cont
  | .ok ee => .next (processEvent st ee) .cont

/-- Whether an iteration outcome exits the loop. -/
def IterOutcome.isExit : IterOutcome → Bool
  | .next _ .exit => true
  | _ => false

/-- The cleanup steps `Manager.Close` can attempt, in the order it attempts
them. -/
inductive CloseStep
  | closeSession (sid : Nat)
  | deleteQueue
  | closeChannel
  | closeConn
deriving DecidableEq, Repr

/-- Embeds the session-closing loop of `Manager.Close`: each stored channel
is closed in turn, and the first close error is wrapped and returned
immediately, skipping the remaining channels.  `f` gives the outcome of
`ch.Close()` for each session identity. -/
def closeSessionsAux (chans : List Session) (f : Nat → Option String) :
    List CloseStep × Option String :=
  match chans with
  | [] => ([], none)
  | ch :: rest =>
    match f ch.sid with
    | some e =>
      ([CloseStep.closeSession ch.sid],
        some ("error closing stored gateway channel: " ++ e))
    | none =>
      let r := closeSessionsAux rest f
      (CloseStep.closeSession ch.sid :: r.1, r.2)

/-- Embeds the tail of `Manager.Close`: the `m.Conn != nil` guard and the
connection close, whose error is wrapped and returned. -/
def closeConnPart (tr : List CloseStep) (hasConn : Bool) (connErr : Option String) :
    List CloseStep × Option String :=
  match hasConn, connErr with
  | true, some e =>
    (tr ++ [CloseStep.closeConn], some ("error closing connection to broker: " ++ e))
  | true, none => (tr ++ [CloseStep.closeConn], none)
  | false, _ => (tr, none)

/-- Embeds `Manager.Close` over the registry: close each stored gateway
channel (aborting with the first error), then — only if no session close
failed — delete the event queue when its name is non-empty (a deletion
failure is only logged), close the management channel (error wrapped and
returned, skipping the connection close), and close the connection.
Returns the attempted steps and the returned error. -/
def mgrClose (reg : List (String × Session)) (f : Nat → Option String)
    (evQueName : String) (hasCh hasConn : Bool) (chErr connErr : Option String) :
    List CloseStep × Option String :=
  let s := closeSessionsAux (getChannels reg) f
  match s.2 with
  | some e => (s.1, some e)
  | none =>
    let tr := if 0 < evQueName.length then s.1 ++ [CloseStep.deleteQueue] else s.1
    match hasCh, chErr with
    | true, some e =>
      (tr ++ [CloseStep.closeChannel], some ("error closing management channel: " ++ e))
    | true, none => closeConnPart (tr ++ [CloseStep.closeChannel]) hasConn connErr
    | false, _ => closeConnPart tr hasConn connErr

/-- Embeds `Manager.DoGatewayRPC`: the registry lookup with the comma-ok
type assertion back to `*GatewayChannel` (an absent entry yields the
unknown-gateway error without touching the RPC path), then delegation to
the session's `DoRPC` (an oracle, since its code is outside the embedded
core), wrapping its error. -/
def DoGatewayRPC (reg : List (String × Session)) (gatewayID : String)
    (request : IotMessage)
    (doRPC : Session → IotMessage → Except String IotMessage) :
    Except String IotMessage :=
  match regGet reg gatewayID with
  | none => Except.error "error getting channel with specified gatewayID"
  | some gwChan =>
    match doRPC gwChan request with
    | Except.error e => Except.error ("failed making RPC to gateway channel: " ++ e)
    | Except.ok response => Except.ok response

/-- Embeds `GatewayChannel.PrintMessage`, whose receiver and `message`
parameter are both by-value copies in the source: the returned value is the
copy that gets logged — a non-empty `Preview` is replaced by the
placeholder on that copy. -/
def printMessage (message : IotMessage) : IotMessage :=
  if 0 < message.preview.length then
    { message with preview := "Some Base64 code ;)" }
  else message

/-- An inbound frame as the pump sees it, represented by the outcome of the
external JSON codec on its payload (spec: malformed input is a decode
error): either a frame whose payload fails `json.Unmarshal`, or one that
decodes to a message. -/
inductive Frame
  | malformed (raw : String)
  | wellformed (m : IotMessage)
deriving DecidableEq, Repr

/-- The `json.Unmarshal` outcome for a frame. -/
def Frame.decode : Frame → Except String IotMessage
  | .malformed raw => .error raw
  | .wellformed m => .ok m

/-- How one spawned processing step of `GatewayChannel.Start` ends. -/
inductive ProcResult
  | decodeFailed
  | droppedDbError
  | droppedUnregistered
  | panicked
  | processed (procErr : Option String)
deriving DecidableEq, Repr

/-- Everything one processing step does: the business-logic field it leaves
behind, how it ended, the copy `PrintMessage` logged, and the message value
handed to `bl.Process` (if that call was reached). -/
structure FrameEffects where
  newBl : Option Logic
  result : ProcResult
  logged : Option IotMessage
  handed : Option IotMessage
deriving DecidableEq, Repr

/-- Embeds the trailing `c.bl.Process(iotmessage)` call: a method call on a
nil `interfaces.Logic` value is a runtime panic; otherwise `Process` runs
and its error is logged and swallowed. -/
def invokeProcess (bl : Option Logic) (m : IotMessage)
    (processErr : IotMessage → Option String) : ProcResult × Option IotMessage :=
  match bl with
  | none => (.panicked, none)
  | some _ => (.processed (processErr m), some m)

/-- Embeds the goroutine body spawned per received frame in
`GatewayChannel.Start`: decode (failure logged, frame dropped), the
`PrintMessage` call on a copy, the lazy business-logic section when `c.bl`
is nil (existence check via `checkExist`, creation via `createLogic`; note
the source does not return after a creation error), and the final
`c.bl.Process` call. -/
def handleFrame (bl : Option Logic) (frame : Frame)
    (checkExist : IotMessage → Except String Bool)
    (createLogic : Except String Logic)
    (processErr : IotMessage → Option String) : FrameEffects :=
  match frame.decode with
  | .error _ => ⟨bl, .decodeFailed, none, none⟩
  | .ok m =>
    let logged := some (printMessage m)
    match bl with
    | some l =>
      let r := invokeProcess (some l) m processErr
      ⟨some l, r.1, logged, r.2⟩
    | none =>
      match checkExist m with
      | .error _ => ⟨none, .droppedDbError, logged, none⟩
      | .ok false => ⟨none, .droppedUnregistered, logged, none⟩
      | .ok true =>
        match createLogic with
        | .error _ =>
          let r := invokeProcess none m processErr
          ⟨none, r.1, logged, r.2⟩
        | .ok l =>
          let r := invokeProcess (some l) m processErr
          ⟨some l, r.1, logged, r.2⟩

/-- What one iteration of the pump loop in `GatewayChannel.Start` can
observe: the context already cancelled, a read error from the transport, or
a received frame. -/
inductive PumpInput
  | cancelledTick
  | readError (e : String)
  | frame (f : Frame)
deriving DecidableEq, Repr

/-- Embeds the pump loop of `GatewayChannel.Start` over a schedule of
inputs: cancellation breaks the loop, a read error is logged and the loop
continues, and a received frame is handled by the processing step (modelled
sequentially), threading the lazily created business logic. -/
def pump (bl : Option Logic) (inputs : List PumpInput)
    (checkExist : IotMessage → Except String Bool)
    (createLogic : Except String Logic)
    (processErr : IotMessage → Option String) : List ProcResult :=
  match inputs with
  | [] => []
  | .cancelledTick :: _ => []
  | .readError _ :: rest => pump bl rest checkExist createLogic processErr
  | .frame f :: rest =>
    let eff := handleFrame bl f checkExist createLogic processErr
    eff.result :: pump eff.newBl rest checkExist createLogic processErr

/-- The observable actions of `GatewayChannel.Stop`, in program order. -/
inductive StopEffect
  | cancelCtx
  | closeOutCall
  | logOutCloseError (e : String)
  | closeInCall
  | logInCloseError (e : String)
  | updateStatus (gatewayId status : String)
deriving DecidableEq, Repr

/-- Embeds `GatewayChannel.Stop` as its action trace: cancel the context,
close the output transport (an error is logged, not raised), close the
input transport (likewise), then run the offline status-update task for the
gateway.  The function returns no error — `Stop` has no return value. -/
def stop (gatewayId : String) (outCloseErr inCloseErr : Option String) :
    List StopEffect :=
  StopEffect.cancelCtx ::
    StopEffect.closeOutCall ::
      ((match outCloseErr with
        | some e => [StopEffect.logOutCloseError e]
        | none => []) ++
        (StopEffect.closeInCall ::
          ((match inCloseErr with
            | some e => [StopEffect.logInCloseError e]
            | none => []) ++
            [StopEffect.updateStatus gatewayId "off"])))

/-! Registry lemmas. -/

theorem any_filter_self (reg : List (String × Session)) (g : String) :
    (reg.filter (fun p => p.1 != g)).any (fun p => p.1 == g) = false := by
  induction reg with
  | nil => rfl
  | cons p rest ih =>
    by_cases hq : p.1 = g
    · rw [List.filter_cons_of_neg (by simp [hq])]
      exact ih
    · rw [List.filter_cons_of_pos (by simp [hq]), List.any_cons, ih]
      simp [hq]

theorem any_filter_ne (reg : List (String × Session)) (g g' : String) (hne : g' ≠ g) :
    (reg.filter (fun p => p.1 != g)).any (fun p => p.1 == g') =
      reg.any (fun p => p.1 == g') := by
  induction reg with
  | nil => rfl
  | cons p rest ih =>
    by_cases hq : p.1 = g
    · have hmatch : (p.1 == g') = false := by
        simp only [beq_eq_false_iff_ne]
        rw [hq]
        exact Ne.symm hne
      rw [List.filter_cons_of_neg (by simp [hq]), List.any_cons, hmatch,
        Bool.false_or, ih]
    · rw [List.filter_cons_of_pos (by simp [hq]), List.any_cons, List.any_cons, ih]

theorem regContains_regRemove_self (reg : List (String × Session)) (g : String) :
    regContains (regRemove reg g) g = false := by
  exact any_filter_self reg g

theorem regContains_regRemove_other (reg : List (String × Session)) (g g' : String)
    (hne : g' ≠ g) : regContains (regRemove reg g) g' = regContains reg g' := by
  simpa [regRemove, regContains] using any_filter_ne reg g g' hne

theorem regContains_regAdd_self (reg : List (String × Session)) (g : String) (ch : Session) :
    regContains (regAdd reg g ch) g = true := by
  simp [regAdd, regContains]

theorem regContains_regAdd_other (reg : List (String × Session)) (g g' : String)
    (ch : Session) (hne : g' ≠ g) :
    regContains (regAdd reg g ch) g' = regContains reg g' := by
  have hg : (g == g') = false := by
    simp only [beq_eq_false_iff_ne]
    exact Ne.symm hne
  have h1 : regContains (regAdd reg g ch) g' =
      ((g == g') || regContains (regRemove reg g) g') := by
    simp [regAdd, regContains, regRemove]
  rw [h1, hg, regContains_regRemove_other reg g g' hne, Bool.false_or]

theorem regGet_none_contains (reg : List (String × Session)) (g : String)
    (h : regGet reg g = none) : regContains reg g = false := by
  induction reg with
  | nil => rfl
  | cons p rest ih =>
    by_cases hp : p.1 = g
    · simp [regGet, List.find?_cons, hp] at h
    · have h' : regGet rest g = none := by
        simpa [regGet, List.find?_cons, hp] using h
      simpa [regContains, hp] using ih h'

theorem regGet_regAdd_self (reg : List (String × Session)) (g : String) (ch : Session) :
    regGet (regAdd reg g ch) g = some ch := by
  simp [regGet, regAdd, List.find?_cons]

/-! Event-dispatch lemmas. -/

theorem processEvent_preserves (st : MgrState) (e : ExchangeEvent) (g : String)
    (h : actionableFor g e = false) :
    regContains (processEvent st e).registry g = regContains st.registry g := by
  obtain ⟨et, qn⟩ := e
  match et, qn with
  | none, _ => rfl
  | some et, none => rfl
  | some et, some qn =>
    have h' : (((parseQueue qn).1 == g) && (parseQueue qn).2) = false := h
    by_cases hp : (parseQueue qn).2 = true
    · have hg : ((parseQueue qn).1 == g) = false := by
        rcases Bool.and_eq_false_iff.mp h' with h1 | h2
        · exact h1
        · exact absurd hp (by simp [h2])
      have hne : g ≠ (parseQueue qn).1 := by
        intro he
        rw [he] at hg
        simp at hg
      by_cases hc : et = "queue.created"
      · simp [processEvent, hp, hc]
        exact regContains_regAdd_other _ _ _ _ hne
      · by_cases hd : et = "queue.deleted"
        · cases hg2 : regGet st.registry (parseQueue qn).1 with
          | none => simp [processEvent, hp, hc, hd, hg2]
          | some ch =>
            simp [processEvent, hp, hc, hd, hg2]
            exact regContains_regRemove_other _ _ _ hne
        · simp [processEvent, hp, hc, hd]
    · simp [processEvent, hp]

theorem processEvent_created (st : MgrState) (e : ExchangeEvent) (g : String)
    (ha : actionableFor g e = true) (hc : e.eventType = some "queue.created") :
    regContains (processEvent st e).registry g = true := by
  obtain ⟨et, qn⟩ := e
  match et, qn with
  | none, _ => exact absurd ha (by simp [actionableFor])
  | some et, none => exact absurd ha (by simp [actionableFor])
  | some et, some qn =>
    have ha' : (((parseQueue qn).1 == g) && (parseQueue qn).2) = true := ha
    have hg1 : (parseQueue qn).1 = g := by
      have := (Bool.and_eq_true_iff.mp ha').1
      simpa using this
    have hp : (parseQueue qn).2 = true := (Bool.and_eq_true_iff.mp ha').2
    have het : et = "queue.created" := by
      simpa using hc
    simp only [processEvent, hp, het, if_true, if_pos rfl]
    rw [hg1]
    exact regContains_regAdd_self _ _ _

theorem processEvent_deleted (st : MgrState) (e : ExchangeEvent) (g : String)
    (ha : actionableFor g e = true) (hd : e.eventType = some "queue.deleted") :
    regContains (processEvent st e).registry g = false := by
  obtain ⟨et, qn⟩ := e
  match et, qn with
  | none, _ => exact absurd ha (by simp [actionableFor])
  | some et, none => exact absurd ha (by simp [actionableFor])
  | some et, some qn =>
    have ha' : (((parseQueue qn).1 == g) && (parseQueue qn).2) = true := ha
    have hg1 : (parseQueue qn).1 = g := by
      have := (Bool.and_eq_true_iff.mp ha').1
      simpa using this
    have hp : (parseQueue qn).2 = true := (Bool.and_eq_true_iff.mp ha').2
    have het : et = "queue.deleted" := by
      simpa using hd
    cases hg2 : regGet st.registry (parseQueue qn).1 with
    | none =>
      simp [processEvent, hp, het, hg2]
      rw [hg1] at hg2
      exact regGet_none_contains _ _ hg2
    | some ch =>
      simp [processEvent, hp, het, hg2]
      rw [hg1]
      exact regContains_regRemove_self _ _

theorem runEvents_append_singleton (st : MgrState) (xs : List ExchangeEvent)
    (e : ExchangeEvent) :
    runEvents st (xs ++ [e]) = processEvent (runEvents st xs) e := by
  simp [runEvents, List.foldl_append]

theorem lastActionable_append_singleton (g : String) (xs : List ExchangeEvent)
    (e : ExchangeEvent) :
    lastActionable g (xs ++ [e]) =
      if actionableFor g e then e.eventType else lastActionable g xs := by
  simp [lastActionable, List.foldl_append]

theorem closeSessionsAux_first_error (pre : List Session) (s : Session)
    (post : List Session) (f : Nat → Option String) (e : String)
    (hs : f s.sid = some e) :
    (∀ x ∈ pre, f x.sid = none) →
    closeSessionsAux (pre ++ s :: post) f =
      (pre.map (fun x => CloseStep.closeSession x.sid) ++ [CloseStep.closeSession s.sid],
        some ("error closing stored gateway channel: " ++ e)) := by
  induction pre with
  | nil =>
    intro _
    simp [closeSessionsAux, hs]
  | cons x rest ih =>
    intro hpre
    have hx : f x.sid = none := hpre x (by simp)
    have ih' := ih (fun y hy => hpre y (by simp [hy]))
    simp [closeSessionsAux, hx, ih']

/-- C1 (amended): for every sequence of Created/Deleted exchange events
processed by the event loop from the initial manager state, the Registry
contains a session for gateway `g` iff the most recent actionable event for
`g` (one whose queue name parses as `g.in`) was Created.  (The original
Shutdown clause fails: `Manager.Close` does not remove sessions from the
registry — see the counterexample.) -/
theorem registry_contains_iff_last_created (evs : List ExchangeEvent)
    (hall : ∀ e ∈ evs, e.eventType = some "queue.created" ∨
      e.eventType = some "queue.deleted")
    (g : String) :
    regContains (runEvents initMgr evs).registry g = true ↔
      lastActionable g evs = some "queue.created" := by
  revert hall
  induction evs using List.reverseRecOn with
  | nil =>
    intro _
    simp [runEvents, lastActionable, initMgr, regContains]
  | append_singleton xs e ih =>
    intro hall
    have hxs : ∀ x ∈ xs, x.eventType = some "queue.created" ∨
        x.eventType = some "queue.deleted" :=
      fun x hx => hall x (List.mem_append_left _ hx)
    rw [runEvents_append_singleton, lastActionable_append_singleton]
    cases ha : actionableFor g e with
    | false =>
      rw [processEvent_preserves _ _ _ ha, if_neg (by simp [ha])]
      exact ih hxs
    | true =>
      rcases hall e (List.mem_append_right _ (by simp)) with hc | hd
      · rw [processEvent_created _ _ _ ha hc]
        simp [hc]
      · rw [processEvent_deleted _ _ _ ha hd]
        simp [hd]

/-- Concrete event sequence used to witness `registry_contains_iff_last_created`. -/
def c1WitnessEvents : List ExchangeEvent :=
  [⟨some "queue.created", some "g.in"⟩,
    ⟨some "queue.deleted", some "g.in"⟩,
    ⟨some "queue.created", some "g.in"⟩]

/-- Witness for C1's amended theorem at a concrete event sequence. -/
theorem registry_contains_iff_last_created_witness :
    (∀ e ∈ c1WitnessEvents, e.eventType = some "queue.created" ∨
      e.eventType = some "queue.deleted") ∧
    (regContains (runEvents initMgr c1WitnessEvents).registry "g" = true ↔
      lastActionable "g" c1WitnessEvents = some "queue.created") :=
  ⟨by decide, registry_contains_iff_last_created c1WitnessEvents (by decide) "g"⟩

/-- C1 counterexample to the original claim: after Created events for `g1`
and `g2`, a Shutdown in which closing `g2`'s session fails returns at once:
`g1`'s session is never even close-attempted (the only attempted step is
closing session 1), yet the Registry still contains `g1`'s fully live
session — so "a live session exists iff ... and no Shutdown has occurred
since" is false on the code. -/
theorem shutdown_leaves_registry_cex :
    regContains (runEvents initMgr
        [⟨some "queue.created", some "g1.in"⟩,
          ⟨some "queue.created", some "g2.in"⟩]).registry "g1" = true ∧
    mgrClose (runEvents initMgr
        [⟨some "queue.created", some "g1.in"⟩,
          ⟨some "queue.created", some "g2.in"⟩]).registry
      (fun sid => if sid == 1 then some "broken pipe" else none)
      "server1" true true none none =
      ([CloseStep.closeSession 1],
        some "error closing stored gateway channel: broken pipe") := by
  decide

/-- C2 (code bug): when no business logic exists, the gateway is registered
and `CreateLogic` fails, the source logs the error but does not return, and
then calls `Process` on the still-nil `interfaces.Logic` — a runtime panic,
not a dropped message with the session kept running. -/
theorem createLogic_failure_panics_on_process :
    (handleFrame none (Frame.wellformed ⟨"gw42", ""⟩)
        (fun _ => Except.ok true)
        (Except.error "cannot load business logic params")
        (fun _ => none)).result = ProcResult.panicked := rfl

/-- C3 (code bug): the event loop treats the cancellation error exactly as
any other read error — `continue` — so cancellation leaves the state
unchanged and no input whatsoever makes an iteration exit the loop. -/
theorem event_loop_never_exits :
    (∀ st : MgrState,
      loopIter st ReadResult.cancelled = IterOutcome.next st LoopControl.cont) ∧
    (∀ (st : MgrState) (r : ReadResult), (loopIter st r).isExit = false) := by
  constructor
  · intro st
    rfl
  · intro st r
    cases r with
    | cancelled => rfl
    | chanClosed => rfl
    | msg rk h =>
      cases h with
      | none => rfl
      | some hv => cases hv <;> rfl

/-- C4 (amended): `Manager.Close` is not best-effort across sessions: the
first session-close error is wrapped and returned immediately — the
remaining sessions, the monitor-queue deletion, the channel close and the
connection close are all skipped. -/
theorem close_aborts_on_session_error (pre post : List (String × Session))
    (g : String) (s : Session) (f : Nat → Option String) (e : String)
    (hpre : ∀ p ∈ pre, f p.2.sid = none) (hs : f s.sid = some e)
    (qn : String) (hasCh hasConn : Bool) (chErr connErr : Option String) :
    mgrClose (pre ++ (g, s) :: post) f qn hasCh hasConn chErr connErr =
      (pre.map (fun p => CloseStep.closeSession p.2.sid) ++
          [CloseStep.closeSession s.sid],
        some ("error closing stored gateway channel: " ++ e)) := by
  have hchan : getChannels (pre ++ (g, s) :: post) =
      pre.map (fun p => p.2) ++ s :: post.map (fun p => p.2) := by
    simp [getChannels]
  have hpre' : ∀ x ∈ pre.map (fun p => p.2), f x.sid = none := by
    intro x hx
    obtain ⟨p, hp, hpx⟩ := List.mem_map.mp hx
    rw [← hpx]
    exact hpre p hp
  have haux := closeSessionsAux_first_error (pre.map (fun p => p.2)) s
    (post.map (fun p => p.2)) f e hs hpre'
  simp [mgrClose, hchan, haux, List.map_map, Function.comp]

/-- Witness for C4's amended theorem: three sessions, the middle one's
close fails; only the first two closes are attempted and the wrapped error
is returned. -/
theorem close_aborts_on_session_error_witness :
    (∀ p ∈ [("a", (⟨0, "a"⟩ : Session))],
      (fun sid => if sid == 1 then some "boom" else none) p.2.sid = none) ∧
    (fun sid => if sid == 1 then some "boom" else none) (Session.sid ⟨1, "b"⟩) =
      some "boom" ∧
    mgrClose ([("a", ⟨0, "a"⟩)] ++ ("b", ⟨1, "b"⟩) :: [("c", ⟨2, "c"⟩)])
      (fun sid => if sid == 1 then some "boom" else none)
      "srv" true true none none =
      ([CloseStep.closeSession 0, CloseStep.closeSession 1],
        some ("error closing stored gateway channel: " ++ "boom")) :=
  ⟨by decide, by decide,
    close_aborts_on_session_error [("a", ⟨0, "a"⟩)] [("c", ⟨2, "c"⟩)] "b" ⟨1, "b"⟩
      _ "boom" (by decide) (by decide) "srv" true true none none⟩

/-- C4 counterexample to the original claim: two live sessions, the first
close errors — the second session's close, the monitor-queue deletion, the
channel close and the connection close are never attempted, and the error
is returned immediately rather than after all closes. -/
theorem close_not_best_effort_cex :
    mgrClose [("g1", ⟨0, "g1"⟩), ("g2", ⟨1, "g2"⟩)]
      (fun sid => if sid == 0 then some "boom" else none)
      "srv" true true none none =
      ([CloseStep.closeSession 0],
        some "error closing stored gateway channel: boom") := by
  decide

/-- C5 (amended): an exchange event whose name header is a string that does
not parse as `<gatewayId>.in` is ignored: the manager state is unchanged
and the loop continues.  (The missing/non-string header cases instead
panic — see the counterexample.) -/
theorem unparseable_queue_name_ignored (st : MgrState) (et qn : String)
    (h : (parseQueue qn).2 = false) :
    loopIter st (ReadResult.msg et (some (HeaderVal.str qn))) =
      IterOutcome.next st LoopControl.cont := by
  simp [loopIter, readExchangeEvent, processEvent, h]

/-- Witness for C5's amended theorem: a queue name with no dot separator is
ignored. -/
theorem unparseable_queue_name_ignored_witness :
    (parseQueue "justaname").2 = false ∧
    loopIter initMgr (ReadResult.msg "queue.created" (some (HeaderVal.str "justaname"))) =
      IterOutcome.next initMgr LoopControl.cont :=
  ⟨by decide,
    unparseable_queue_name_ignored initMgr "queue.created" "justaname" (by decide)⟩

/-- C5 counterexample to the original claim: the unchecked type assertion
`message.Headers["name"].(string)` in `readExchangeEvent` panics when the
`"name"` header is non-string or missing, so those "unparseable queueName"
events are fatal, not ignored. -/
theorem nonstring_name_header_panics_cex :
    loopIter initMgr (ReadResult.msg "queue.created" (some HeaderVal.nonStr)) =
      IterOutcome.panicked ∧
    loopIter initMgr (ReadResult.msg "queue.created" none) =
      IterOutcome.panicked :=
  ⟨rfl, rfl⟩

/-- C6 (amended): a Created event for a gateway already present in the
Registry builds and starts a fresh session and replaces the old one in the
Registry without closing it — the set of closed sessions is unchanged, so
the old session's resources are leaked. -/
theorem created_replaces_without_close (st : MgrState) (g qn : String)
    (hp : parseQueue qn = (g, true))
    (_hpres : regContains st.registry g = true) :
    regGet (processEvent st ⟨some "queue.created", some qn⟩).registry g =
      some ⟨st.nextSid, g⟩ ∧
    (processEvent st ⟨some "queue.created", some qn⟩).closed = st.closed := by
  constructor
  · simp [processEvent, hp]
    exact regGet_regAdd_self _ _ _
  · simp [processEvent, hp]

/-- Witness for C6's amended theorem: a second Created event for `g`
replaces `g`'s session with a fresh one while closing nothing. -/
theorem created_replaces_without_close_witness :
    parseQueue "g.in" = ("g", true) ∧
    regContains (runEvents initMgr [⟨some "queue.created", some "g.in"⟩]).registry "g" =
      true ∧
    (regGet (processEvent (runEvents initMgr [⟨some "queue.created", some "g.in"⟩])
        ⟨some "queue.created", some "g.in"⟩).registry "g" =
      some ⟨(runEvents initMgr [⟨some "queue.created", some "g.in"⟩]).nextSid, "g"⟩ ∧
    (processEvent (runEvents initMgr [⟨some "queue.created", some "g.in"⟩])
        ⟨some "queue.created", some "g.in"⟩).closed =
      (runEvents initMgr [⟨some "queue.created", some "g.in"⟩]).closed) :=
  ⟨by decide, by decide,
    created_replaces_without_close _ "g" "g.in" (by decide) (by decide)⟩

/-- C6 counterexample to the original claim: two Created events for `g`
leave the second session (identity 1) in the Registry and close nothing —
the first session (identity 0) is replaced without being closed. -/
theorem created_replace_leaks_cex :
    regGet (runEvents initMgr
        [⟨some "queue.created", some "g.in"⟩,
          ⟨some "queue.created", some "g.in"⟩]).registry "g" =
      some ⟨1, "g"⟩ ∧
    (runEvents initMgr
        [⟨some "queue.created", some "g.in"⟩,
          ⟨some "queue.created", some "g.in"⟩]).closed = [] := by
  decide

/-- C7: `DoGatewayRPC` for a gateway with no session in the Registry fails
immediately with the unknown-gateway error, and the result does not depend
on the session RPC oracle — no session's RPC path is invoked. -/
theorem doGatewayRPC_unknown_gateway (reg : List (String × Session))
    (gatewayID : String) (request : IotMessage)
    (doRPC doRPC2 : Session → IotMessage → Except String IotMessage)
    (h : regGet reg gatewayID = none) :
    DoGatewayRPC reg gatewayID request doRPC =
      Except.error "error getting channel with specified gatewayID" ∧
    DoGatewayRPC reg gatewayID request doRPC =
      DoGatewayRPC reg gatewayID request doRPC2 := by
  constructor
  · simp [DoGatewayRPC, h]
  · simp [DoGatewayRPC, h]

/-- Witness for C7 at the empty registry. -/
theorem doGatewayRPC_unknown_gateway_witness :
    regGet [] "gw42" = none ∧
    (DoGatewayRPC [] "gw42" ⟨"gw42", ""⟩ (fun _ _ => Except.error "a") =
      Except.error "error getting channel with specified gatewayID" ∧
    DoGatewayRPC [] "gw42" ⟨"gw42", ""⟩ (fun _ _ => Except.error "a") =
      DoGatewayRPC [] "gw42" ⟨"gw42", ""⟩ (fun _ _ => Except.ok ⟨"gw42", ""⟩)) :=
  ⟨rfl, doGatewayRPC_unknown_gateway [] "gw42" ⟨"gw42", ""⟩ _ _ rfl⟩

/-- C8: a frame whose payload fails JSON decoding is dropped (its
processing step ends in `decodeFailed`, leaving the business logic
unchanged) and the pump keeps running: the next well-formed frame is still
received and handed to its processing step. -/
theorem malformed_frame_pump_continues (bl : Option Logic) (raw : String)
    (m : IotMessage) (rest : List PumpInput)
    (checkExist : IotMessage → Except String Bool)
    (createLogic : Except String Logic)
    (processErr : IotMessage → Option String) :
    pump bl (PumpInput.frame (Frame.malformed raw) ::
        PumpInput.frame (Frame.wellformed m) :: rest)
      checkExist createLogic processErr =
      ProcResult.decodeFailed ::
        (handleFrame bl (Frame.wellformed m) checkExist createLogic processErr).result ::
          pump (handleFrame bl (Frame.wellformed m) checkExist createLogic processErr).newBl
            rest checkExist createLogic processErr := rfl

/-- C9: `Stop` always cancels the context first, then attempts both
transport closes, and always ends by issuing the offline status update for
the gateway — in that order, for every combination of close failures, and
without raising any error (the trace is the whole return value). -/
theorem stop_cancel_close_update_order (gatewayId : String)
    (outErr inErr : Option String) :
    (stop gatewayId outErr inErr).head? = some StopEffect.cancelCtx ∧
    (stop gatewayId outErr inErr).getLast? =
      some (StopEffect.updateStatus gatewayId "off") ∧
    [StopEffect.cancelCtx, StopEffect.closeOutCall, StopEffect.closeInCall,
      StopEffect.updateStatus gatewayId "off"].Sublist (stop gatewayId outErr inErr) := by
  rcases outErr with _ | oe <;> rcases inErr with _ | ie
  · exact ⟨rfl, rfl,
      .cons₂ _ (.cons₂ _ (.cons₂ _ (.cons₂ _ .slnil)))⟩
  · exact ⟨rfl, rfl,
      .cons₂ _ (.cons₂ _ (.cons₂ _ (.cons _ (.cons₂ _ .slnil))))⟩
  · exact ⟨rfl, rfl,
      .cons₂ _ (.cons₂ _ (.cons _ (.cons₂ _ (.cons₂ _ .slnil))))⟩
  · exact ⟨rfl, rfl,
      .cons₂ _ (.cons₂ _ (.cons _ (.cons₂ _ (.cons _ (.cons₂ _ .slnil)))))⟩

/-- C10: `PrintMessage` receives a by-value copy, so the message a
processing step hands to `Process` afterwards is exactly the decoded
message — preview included — while the logged copy is the redacted one
(non-empty previews are replaced by the placeholder). -/
theorem printMessage_no_caller_mutation (l : Logic) (m : IotMessage)
    (checkExist : IotMessage → Except String Bool)
    (createLogic : Except String Logic)
    (processErr : IotMessage → Option String) :
    (handleFrame (some l) (Frame.wellformed m) checkExist createLogic processErr).handed =
      some m ∧
    (handleFrame (some l) (Frame.wellformed m) checkExist createLogic processErr).logged =
      some (printMessage m) ∧
    (0 < m.preview.length → (printMessage m).preview = "Some Base64 code ;)") := by
  refine ⟨rfl, rfl, fun h => ?_⟩
  simp [printMessage, h]

/-- Witness for C10 at a concrete message with a non-empty preview. -/
theorem printMessage_no_caller_mutation_witness :
    (handleFrame (some ⟨7⟩) (Frame.wellformed ⟨"gw42", "QUJD"⟩)
        (fun _ => Except.ok true) (Except.error "x") (fun _ => none)).handed =
      some ⟨"gw42", "QUJD"⟩ ∧
    (printMessage ⟨"gw42", "QUJD"⟩).preview = "Some Base64 code ;)" :=
  ⟨(printMessage_no_caller_mutation ⟨7⟩ ⟨"gw42", "QUJD"⟩
      (fun _ => Except.ok true) (Except.error "x") (fun _ => none)).1,
    (printMessage_no_caller_mutation ⟨7⟩ ⟨"gw42", "QUJD"⟩
      (fun _ => Except.ok true) (Except.error "x") (fun _ => none)).2.2 (by decide)⟩

end IotCloud
